import Mathlib

/-!
Shallow embedding of the vscope repository (a PulseAudio/SDL/OpenGL
vectorscope, C sources: vscope.c plus an older event-driven variant and a
threaded pa_simple variant) together with proofs about the claims of its
specification.

Conventions of the embedding:
* machine integers become Nat / Int (sample values are the mathematical
  values of the C int16 samples);
* C float / double arithmetic is modelled exactly over an ordered field
  (instantiated at the rationals where everything is decidable and at the
  reals where the code calls sqrtf); all concrete values appearing in the
  claims are exactly representable, so the exact model agrees with the
  float code on them;
* libc sscanf calls are modelled by dedicated scanners for the exact format
  strings appearing in the source;
* fallible code returns Option.
-/

namespace Vscope

/-! ## Constants (vscope.c lines 35-37, 62) -/

/-- BUFFER_SIZE from vscope.c: capacity of the circular sample buffer,
in 16-bit elements. -/
def BUFFER_SIZE : Nat := 1024

/-- DEFAULT_WIDTH from vscope.c. -/
def DEFAULT_WIDTH : Int := 480

/-- DEFAULT_HEIGHT from vscope.c. -/
def DEFAULT_HEIGHT : Int := 480

/-- The SDL sentinel SDL_WINDOWPOS_UNDEFINED, numerically 0x1FFF0000:
the initial and the size-only-geometry window position. -/
def SDL_WINDOWPOS_UNDEFINED : Int := 536805376

/-! ## Capture path: handle_stream_read (vscope.c lines 374-396)

The callback keeps a static cursor buffer_index, stores one int16 element
of the fragment at a time at the cursor, increments the cursor and resets
it to zero when it equals BUFFER_SIZE.  A fragment of byte length L
delivers L / 2 int16 elements; we model a fragment directly as its list of
decoded int16 elements. -/

/-- State of the capture path: the shared circular buffer (a 1024-element
int16 array, modelled as a list of its mathematical values) and the static
write cursor buffer_index. -/
structure CaptureState where
  buffer : List Int
  index : Nat
deriving DecidableEq, Repr

/-- The cursor advance of handle_stream_read: buffer_index++ followed by
the reset to zero when the incremented cursor equals BUFFER_SIZE. -/
def nextIndex (i : Nat) : Nat :=
  if i + 1 = BUFFER_SIZE then 0 else i + 1

/-- One iteration of the copy loop of handle_stream_read: store the element
at the cursor, then advance the cursor. -/
def writeSample (st : CaptureState) (v : Int) : CaptureState :=
  { buffer := st.buffer.set st.index v, index := nextIndex st.index }

/-- handle_stream_read on one fragment: copy each element in order. -/
def handle_stream_read (st : CaptureState) (frag : List Int) : CaptureState :=
  frag.foldl writeSample st

/-- A whole sequence of capture callbacks. -/
def processFragments (st : CaptureState) (frags : List (List Int)) : CaptureState :=
  frags.foldl handle_stream_read st

/-- Process start: static int16 buffer[BUFFER_SIZE] is zero-initialised and
the static cursor starts at 0. -/
def initCapture : CaptureState :=
  { buffer := List.replicate BUFFER_SIZE 0, index := 0 }

/-- Instrumented copy step: same as writeSample but also records the buffer
position the store went through (the cursor value at store time). -/
def writeSampleT (p : CaptureState × List Nat) (v : Int) : CaptureState × List Nat :=
  (writeSample p.1 v, p.2 ++ [p.1.index])

/-- Instrumented run of a sequence of capture callbacks: final state plus
the list of all store positions, in order. -/
def processTrace (st : CaptureState) (frags : List (List Int)) : CaptureState × List Nat :=
  frags.foldl (fun p frag => frag.foldl writeSampleT p) (st, [])

/-! ### Capture-path lemmas -/

lemma nextIndex_lt (i : Nat) (h : i < BUFFER_SIZE) : nextIndex i < BUFFER_SIZE := by
  unfold nextIndex BUFFER_SIZE at *
  split <;> omega

lemma writeSample_index (st : CaptureState) (v : Int) :
    (writeSample st v).index = nextIndex st.index := rfl

lemma writeSample_length (st : CaptureState) (v : Int) :
    (writeSample st v).buffer.length = st.buffer.length := by
  simp [writeSample]

/-- The invariant carried through the instrumented fold. -/
def CaptureInv (p : CaptureState × List Nat) : Prop :=
  p.1.index < BUFFER_SIZE ∧ p.1.buffer.length = BUFFER_SIZE ∧ ∀ j ∈ p.2, j < BUFFER_SIZE

lemma captureInv_step (p : CaptureState × List Nat) (v : Int) (h : CaptureInv p) :
    CaptureInv (writeSampleT p v) := by
  obtain ⟨hidx, hlen, htr⟩ := h
  refine ⟨nextIndex_lt _ hidx, ?_, ?_⟩
  · simpa [writeSampleT, writeSample_length] using hlen
  · intro j hj
    rcases List.mem_append.mp hj with hj | hj
    · exact htr j hj
    · rcases List.mem_singleton.mp hj with rfl
      exact hidx

lemma captureInv_frag (frag : List Int) :
    ∀ p, CaptureInv p → CaptureInv (frag.foldl writeSampleT p) := by
  induction frag with
  | nil => intro p h; exact h
  | cons v vs ih =>
    intro p h
    exact ih _ (captureInv_step p v h)

lemma captureInv_frags (frags : List (List Int)) :
    ∀ p, CaptureInv p → CaptureInv (frags.foldl (fun p frag => frag.foldl writeSampleT p) p) := by
  induction frags with
  | nil => intro p h; exact h
  | cons f fs ih =>
    intro p h
    exact ih _ (captureInv_frag f p h)

lemma foldT_fst (frag : List Int) :
    ∀ (st : CaptureState) (t : List Nat),
      (frag.foldl writeSampleT (st, t)).1 = frag.foldl writeSample st := by
  induction frag with
  | nil => intro st t; rfl
  | cons v vs ih =>
    intro st t
    exact ih (writeSample st v) (t ++ [st.index])

lemma foldT_pair (frag : List Int) (p : CaptureState × List Nat) :
    frag.foldl writeSampleT p = ((frag.foldl writeSampleT p).1, (frag.foldl writeSampleT p).2) := rfl

lemma processTrace_fst (frags : List (List Int)) :
    ∀ (st : CaptureState) (t : List Nat),
      (frags.foldl (fun p frag => frag.foldl writeSampleT p) (st, t)).1 =
        frags.foldl handle_stream_read st := by
  induction frags with
  | nil => intro st t; rfl
  | cons f fs ih =>
    intro st t
    have h1 : f.foldl writeSampleT (st, t) =
        ((f.foldl writeSampleT (st, t)).1, (f.foldl writeSampleT (st, t)).2) := rfl
    calc (fs.foldl (fun p frag => frag.foldl writeSampleT p) (f.foldl writeSampleT (st, t))).1
        = (fs.foldl (fun p frag => frag.foldl writeSampleT p)
            ((f.foldl writeSampleT (st, t)).1, (f.foldl writeSampleT (st, t)).2)).1 := by rw [← h1]
      _ = fs.foldl handle_stream_read (f.foldl writeSampleT (st, t)).1 := ih _ _
      _ = fs.foldl handle_stream_read (handle_stream_read st f) := by
            rw [foldT_fst f st t]; rfl

lemma captureInv_init : CaptureInv (initCapture, []) := by
  refine ⟨?_, ?_, ?_⟩
  · show (0:Nat) < BUFFER_SIZE
    unfold BUFFER_SIZE
    omega
  · show (List.replicate BUFFER_SIZE (0:Int)).length = BUFFER_SIZE
    exact List.length_replicate _ _
  · intro j hj; simp at hj

lemma captureInv_processTrace (frags : List (List Int)) :
    CaptureInv (processTrace initCapture frags) :=
  captureInv_frags frags (initCapture, []) captureInv_init

/-! ## Claim C1 -/

/-- C1: for every sequence of capture callbacks delivering fragments of
arbitrary lengths, the circular-buffer write cursor stays in [0, 1024):
every store through it happens at a position below the length of the
1024-element buffer, the buffer keeps its 1024 elements, the cursor
advances by one per copied element and is reset to zero exactly when the
incremented cursor reaches the capacity, even when the total number of
elements written exceeds the capacity. -/
theorem c1_write_cursor_safety (frags : List (List Int)) :
    (processFragments initCapture frags).index < BUFFER_SIZE ∧
    (processFragments initCapture frags).buffer.length = BUFFER_SIZE ∧
    (processTrace initCapture frags).1 = processFragments initCapture frags ∧
    (∀ j ∈ (processTrace initCapture frags).2, j < BUFFER_SIZE) ∧
    (∀ i, i < BUFFER_SIZE →
      ((nextIndex i = 0 ↔ i + 1 = BUFFER_SIZE) ∧
       (i + 1 ≠ BUFFER_SIZE → nextIndex i = i + 1))) := by
  obtain ⟨hidx, hlen, htr⟩ := captureInv_processTrace frags
  have hfst : (processTrace initCapture frags).1 = processFragments initCapture frags :=
    processTrace_fst frags initCapture []
  rw [hfst] at hidx hlen
  refine ⟨hidx, hlen, hfst, htr, ?_⟩
  · intro i hi
    constructor
    · unfold nextIndex
      split <;> omega
    · intro hne
      unfold nextIndex
      split <;> omega

/-- Witness for C1 at a concrete run: three one-element fragments store at
positions 0, 1, 2, all in bounds, and a cursor at 1023 wraps to 0. -/
theorem c1_write_cursor_safety_witness :
    (1 ∈ (processTrace initCapture [[5], [7], [9]]).2 ∧ 1 < BUFFER_SIZE) ∧
    (1023 < BUFFER_SIZE ∧ nextIndex 1023 = 0) := by
  have h := c1_write_cursor_safety [[5], [7], [9]]
  have hmem : 1 ∈ (processTrace initCapture [[5], [7], [9]]).2 := by
    have : (processTrace initCapture [[5], [7], [9]]).2 = [0, 1, 2] := rfl
    rw [this]; simp
  have h1023 : 1023 < BUFFER_SIZE := by decide
  exact ⟨⟨hmem, h.2.2.2.1 1 hmem⟩, h1023, ((h.2.2.2.2 1023 h1023).1).mpr (by decide)⟩

/-! ## Models of the libc sscanf formats used by the option parsers

vscope.c calls sscanf with the fixed formats "%2x%2x%2x" and "#%2x%2x%2x"
(parse_foreground) and "%ix%i%i%i", "%ix%i", "%i%i" (parse_geometry).
Each format is modelled by a dedicated scanner over the character list of
the argument.  A %x / %i conversion first skips white space and accepts an
optional sign (the field width of %2x counts the sign character); a
literal format character matches exactly one identical input character.
sscanf returns the number of completed conversions, or EOF (-1) when the
input ends before the first conversion completes; the scanners for
"%2x%2x%2x" return that count, the scanners used only under an equality
test with the full conversion count return an Option of the fully
converted tuple.  %i has the base detection of the conversion (leading 0x
means hexadecimal, leading 0 means octal), with scanf's longest-prefix
matching-failure semantics: "0x" with no hexadecimal digit after it is a
matching failure of the whole conversion (scanf cannot push the x back),
unlike strtol.  The 0x prefix form inside %x is not modelled: within the
2-character width of %2x it leaves no room for a digit, and no theorem
evaluates an input containing it. -/

/-- White space skipped by a scanf conversion (C isspace). -/
def isScanWs (c : Char) : Bool :=
  c = ' ' || c = '\t' || c = '\n' || c = '\r' || c = '\x0b' || c = '\x0c'

/-- Drop leading scanf white space. -/
def skipWs : List Char → List Char
  | [] => []
  | c :: cs => if isScanWs c then skipWs cs else c :: cs

/-- Hexadecimal digit test of the %x conversion. -/
def isHexDigitCh (c : Char) : Bool :=
  ('0' ≤ c && c ≤ '9') || ('a' ≤ c && c ≤ 'f') || ('A' ≤ c && c ≤ 'F')

/-- Decimal digit test. -/
def isDigitCh (c : Char) : Bool := '0' ≤ c && c ≤ '9'

/-- Octal digit test. -/
def isOctDigitCh (c : Char) : Bool := '0' ≤ c && c ≤ '7'

/-- Numeric value of a digit character. -/
def digitVal (c : Char) : Nat :=
  if '0' ≤ c && c ≤ '9' then c.toNat - '0'.toNat
  else if 'a' ≤ c && c ≤ 'f' then c.toNat - 'a'.toNat + 10
  else c.toNat - 'A'.toNat + 10

/-- Longest prefix of digits satisfying p, and the rest of the input. -/
def takeDigits (p : Char → Bool) : List Char → List Char × List Char
  | [] => ([], [])
  | c :: cs =>
    if p c then
      let r := takeDigits p cs
      (c :: r.1, r.2)
    else ([], c :: cs)

/-- Value of a digit string in the given base. -/
def digitsToNat (base : Nat) (ds : List Char) : Nat :=
  ds.foldl (fun a c => a * base + digitVal c) 0

/-- One %2x conversion after white-space skipping: an optional sign
followed by hexadecimal digits, at most 2 characters in total (the field
width counts the sign), with the value assigned to the unsigned int
target (a '-' value wraps modulo 2^32) and the remaining input; none on a
matching failure (no hexadecimal digit where one is required). -/
def spanHex2 : List Char → Option (Nat × List Char)
  | [] => none
  | c1 :: cs1 =>
    if c1 = '+' then
      match cs1 with
      | c :: rest => if isHexDigitCh c then some (digitVal c, rest) else none
      | [] => none
    else if c1 = '-' then
      match cs1 with
      | c :: rest =>
        if isHexDigitCh c then some ((2 ^ 32 - digitVal c) % 2 ^ 32, rest) else none
      | [] => none
    else if isHexDigitCh c1 then
      match cs1 with
      | c2 :: cs2 =>
        if isHexDigitCh c2 then some (16 * digitVal c1 + digitVal c2, cs2)
        else some (digitVal c1, cs1)
      | [] => some (digitVal c1, [])
    else none

/-- Result of sscanf with a three-conversion format: the return value
(count of completed conversions, -1 for EOF) and the values actually
assigned to the three output variables (none = the variable was left
untouched, i.e. indeterminate in C). -/
structure Hex3Result where
  count : Int
  rv : Option Nat
  gv : Option Nat
  bv : Option Nat
deriving DecidableEq, Repr

/-- sscanf(s, "%2x%2x%2x", &r, &g, &b): three successive %2x conversions.
EOF (-1) is returned when the input ends (after white space) before the
first conversion. -/
def scanHex3After (cs : List Char) : Hex3Result :=
  let cs0 := skipWs cs
  match spanHex2 cs0 with
  | none => if cs0.isEmpty then ⟨-1, none, none, none⟩ else ⟨0, none, none, none⟩
  | some (r, cs1) =>
    match spanHex2 (skipWs cs1) with
    | none => ⟨1, some r, none, none⟩
    | some (g, cs2) =>
      match spanHex2 (skipWs cs2) with
      | none => ⟨2, some r, some g, none⟩
      | some (b, _) => ⟨3, some r, some g, some b⟩

/-- sscanf(s, "#%2x%2x%2x", &r, &g, &b): a literal '#' followed by three
%2x conversions.  An empty input is an input failure before the first
conversion, hence EOF; a non-'#' first character is a matching failure,
hence 0. -/
def scanHashHex3 : List Char → Hex3Result
  | [] => ⟨-1, none, none, none⟩
  | c :: cs => if c = '#' then scanHex3After cs else ⟨0, none, none, none⟩

/-! ## parse_foreground (vscope.c lines 236-253) -/

/-- The global color triple and rainbow flag of vscope.c
(static struct { float r, g, b } color; static bool rainbow). -/
structure ColorState where
  r : ℚ
  g : ℚ
  b : ℚ
  rainbow : Bool
deriving DecidableEq, Repr

/-- Initial color state: color = {1, 1, 1}, rainbow = false. -/
def initColorState : ColorState := ⟨1, 1, 1, false⟩

/-- parse_foreground: "rainbow" sets the rainbow flag; otherwise the color
is accepted when sscanf(optarg, "%2x%2x%2x", ...) returns 3 or when
sscanf(optarg, "#%2x%2x%2x", ...) returns any nonzero value (the source
tests the second call only for truthiness).  On acceptance the three color
components are divided by 255.  A conversion target the accepted scan left
untouched is indeterminate in C; the model reads 0 in its place, and no
theorem below relies on the color value of such a case.  Returns none
exactly when the source returns true (failure: "invalid color format"). -/
def parse_foreground (s : String) (st : ColorState) : Option ColorState :=
  if s = "rainbow" then some { st with rainbow := true }
  else
    let v1 := scanHex3After s.toList
    if v1.count = 3 then
      some { st with r := (v1.rv.getD 0 : ℚ) / 255, g := (v1.gv.getD 0 : ℚ) / 255,
                     b := (v1.bv.getD 0 : ℚ) / 255 }
    else
      let v2 := scanHashHex3 s.toList
      if v2.count ≠ 0 then
        some { st with r := (v2.rv.getD 0 : ℚ) / 255, g := (v2.gv.getD 0 : ℚ) / 255,
                       b := (v2.bv.getD 0 : ℚ) / 255 }
      else none

/-! ## parse_geometry (vscope.c lines 217-234) -/

/-- The global geometry of vscope.c:
static struct { int x, y, w, h } geometry. -/
structure Geometry where
  x : Int
  y : Int
  w : Int
  h : Int
deriving DecidableEq, Repr

/-- The numeric body of one %i conversion: base detection with scanf
matching-failure semantics.  A leading "0x"/"0X" selects hexadecimal, and
when no hexadecimal digit follows the whole conversion is a matching
failure (scanf consumed the x and cannot push it back, unlike strtol); a
leading 0 selects octal (a bare "0" or a 0 followed by a non-octal digit
yields the value 0: only the one lookahead character needs pushing back);
otherwise decimal digits.  none on a matching failure. -/
def scanNumBody : List Char → Option (Nat × List Char)
  | '0' :: c :: cs =>
    if c = 'x' || c = 'X' then
      match takeDigits isHexDigitCh cs with
      | ([], _) => none
      | (ds, rest) => some (digitsToNat 16 ds, rest)
    else
      match takeDigits isOctDigitCh (c :: cs) with
      | (ds, rest) => some (digitsToNat 8 ds, rest)
  | ['0'] => some (0, [])
  | cs =>
    match takeDigits isDigitCh cs with
    | ([], _) => none
    | (ds, rest) => some (digitsToNat 10 ds, rest)

/-- One %i conversion: white space, optional sign, strtol body. -/
def scanInt (cs0 : List Char) : Option (Int × List Char) :=
  match skipWs cs0 with
  | '+' :: rest => (scanNumBody rest).map fun p => ((p.1 : Int), p.2)
  | '-' :: rest => (scanNumBody rest).map fun p => (-(p.1 : Int), p.2)
  | cs => (scanNumBody cs).map fun p => ((p.1 : Int), p.2)

/-- A literal (non white space) format character: matches exactly one
identical input character. -/
def expectChar (c : Char) : List Char → Option (List Char)
  | [] => none
  | d :: rest => if d = c then some rest else none

/-- sscanf(s, "%ix%i%i%i", &w, &h, &x, &y) == 4: all four conversions. -/
def scanGeometryFull (cs : List Char) : Option (Int × Int × Int × Int) := do
  let (w, cs) ← scanInt cs
  let cs ← expectChar 'x' cs
  let (h, cs) ← scanInt cs
  let (x, cs) ← scanInt cs
  let (y, _) ← scanInt cs
  pure (w, h, x, y)

/-- sscanf(s, "%ix%i", &w, &h) == 2: both conversions. -/
def scanGeometrySize (cs : List Char) : Option (Int × Int) := do
  let (w, cs) ← scanInt cs
  let cs ← expectChar 'x' cs
  let (h, _) ← scanInt cs
  pure (w, h)

/-- sscanf(s, "%i%i", &x, &y) == 2: both conversions. -/
def scanGeometryPos (cs : List Char) : Option (Int × Int) := do
  let (x, cs) ← scanInt cs
  let (y, _) ← scanInt cs
  pure (x, y)

/-- parse_geometry: the three sscanf formats are tried in order; the
succeeding branch determines every geometry field (the width/height branch
sets the position to SDL_WINDOWPOS_UNDEFINED, the position branch sets the
size to the defaults), so the result does not depend on the previous
geometry.  none exactly when the source returns true (failure: "invalid
geometry argument"). -/
def parse_geometry (s : String) : Option Geometry :=
  match scanGeometryFull s.toList with
  | some (w, h, x, y) => some ⟨x, y, w, h⟩
  | none =>
    match scanGeometrySize s.toList with
    | some (w, h) => some ⟨SDL_WINDOWPOS_UNDEFINED, SDL_WINDOWPOS_UNDEFINED, w, h⟩
    | none =>
      match scanGeometryPos s.toList with
      | some (x, y) => some ⟨x, y, DEFAULT_WIDTH, DEFAULT_HEIGHT⟩
      | none => none

/-! ### Character and scanner lemmas -/

lemma hex_char_ne_plus {c : Char} (h : isHexDigitCh c = true) : ¬(c = '+') := by
  intro heq
  subst heq
  exact absurd h (by decide)

lemma hex_char_ne_minus {c : Char} (h : isHexDigitCh c = true) : ¬(c = '-') := by
  intro heq
  subst heq
  exact absurd h (by decide)

lemma hex_char_not_ws (c : Char) (h : isHexDigitCh c = true) : isScanWs c = false := by
  simp only [isHexDigitCh, Bool.or_eq_true, Bool.and_eq_true, decide_eq_true_eq] at h
  apply Bool.eq_false_iff.mpr
  intro hw
  simp only [isScanWs, Bool.or_eq_true, decide_eq_true_eq] at hw
  rcases hw with ((((hw | hw) | hw) | hw) | hw) | hw <;> subst hw <;>
    exact absurd h (by decide)

lemma skipWs_not_ws {c : Char} (cs : List Char) (h : isScanWs c = false) :
    skipWs (c :: cs) = c :: cs := by
  simp [skipWs, h]

lemma spanHex2_two {a b : Char} (cs : List Char) (ha : isHexDigitCh a = true)
    (hb : isHexDigitCh b = true) :
    spanHex2 (a :: b :: cs) = some (16 * digitVal a + digitVal b, cs) := by
  simp [spanHex2, hex_char_ne_plus ha, hex_char_ne_minus ha, ha, hb]

lemma scanHex3After_six (d1 d2 d3 d4 d5 d6 : Char)
    (h1 : isHexDigitCh d1 = true) (h2 : isHexDigitCh d2 = true)
    (h3 : isHexDigitCh d3 = true) (h4 : isHexDigitCh d4 = true)
    (h5 : isHexDigitCh d5 = true) (h6 : isHexDigitCh d6 = true) :
    scanHex3After [d1, d2, d3, d4, d5, d6] =
      ⟨3, some (16 * digitVal d1 + digitVal d2), some (16 * digitVal d3 + digitVal d4),
        some (16 * digitVal d5 + digitVal d6)⟩ := by
  have w1 : skipWs [d1, d2, d3, d4, d5, d6] = [d1, d2, d3, d4, d5, d6] :=
    skipWs_not_ws _ (hex_char_not_ws _ h1)
  have w3 : skipWs [d3, d4, d5, d6] = [d3, d4, d5, d6] :=
    skipWs_not_ws _ (hex_char_not_ws _ h3)
  have w5 : skipWs [d5, d6] = [d5, d6] :=
    skipWs_not_ws _ (hex_char_not_ws _ h5)
  have s12 : ∀ cs, spanHex2 (d1 :: d2 :: cs) = some (16 * digitVal d1 + digitVal d2, cs) :=
    fun cs => spanHex2_two cs h1 h2
  have s34 : ∀ cs, spanHex2 (d3 :: d4 :: cs) = some (16 * digitVal d3 + digitVal d4, cs) :=
    fun cs => spanHex2_two cs h3 h4
  have s56 : ∀ cs, spanHex2 (d5 :: d6 :: cs) = some (16 * digitVal d5 + digitVal d6, cs) :=
    fun cs => spanHex2_two cs h5 h6
  simp only [scanHex3After, w1, s12, w3, s34, w5, s56]

lemma mk_ne_rainbow_of_six (l : List Char) (hlen : l.length = 6) :
    String.mk l ≠ "rainbow" := by
  intro heq
  have hd : l = "rainbow".data := congrArg String.data heq
  rw [show "rainbow".data = ['r', 'a', 'i', 'n', 'b', 'o', 'w'] from rfl] at hd
  rw [hd] at hlen
  exact absurd hlen (by decide)

lemma mk_hash_ne_rainbow (l : List Char) : String.mk ('#' :: l) ≠ "rainbow" := by
  intro heq
  have hd : '#' :: l = "rainbow".data := congrArg String.data heq
  rw [show "rainbow".data = ['r', 'a', 'i', 'n', 'b', 'o', 'w'] from rfl] at hd
  exact absurd (List.head_eq_of_cons_eq hd) (by decide)

/-! ## Claim C2 -/

/-- C2 is refuted as stated: the input "#F" is none of "rainbow", a
six-hex-digit string, or a '#' followed by six hex digits, yet
parse_foreground accepts it — the source tests the result of
sscanf(optarg, "#%2x%2x%2x", ...) only for being nonzero instead of
comparing it with 3, so a single hex digit after the '#' suffices. -/
theorem c2_foreground_counterexample :
    (parse_foreground "#F" initColorState).isSome = true := by decide

/-- C2 (amended): parse_foreground maps "FF0000" and "#FF0000" both to
full red (r=1, g=0, b=0); "rainbow" sets rainbow mode without touching
the color triple; every six-hex-digit string and every '#' followed by
six hex digits is accepted; but the rejection clause only reaches inputs
on which both sscanf calls fail: the second sscanf's result is compared
against 0 rather than 3, so any input beginning with '#' followed by at
least one hex digit (for example "#F") is accepted as well, while inputs
such as "zz" are rejected. -/
theorem c2_foreground_amended :
    parse_foreground "FF0000" initColorState = some ⟨1, 0, 0, false⟩ ∧
    parse_foreground "#FF0000" initColorState = some ⟨1, 0, 0, false⟩ ∧
    (∀ st : ColorState, parse_foreground "rainbow" st = some { st with rainbow := true }) ∧
    (∀ d1 d2 d3 d4 d5 d6 : Char,
      isHexDigitCh d1 = true → isHexDigitCh d2 = true →
      isHexDigitCh d3 = true → isHexDigitCh d4 = true →
      isHexDigitCh d5 = true → isHexDigitCh d6 = true →
        (parse_foreground (String.mk [d1, d2, d3, d4, d5, d6]) initColorState).isSome = true ∧
        (parse_foreground (String.mk ['#', d1, d2, d3, d4, d5, d6]) initColorState).isSome = true) ∧
    (parse_foreground "#F" initColorState).isSome = true ∧
    parse_foreground "zz" initColorState = none := by
  refine ⟨?_, ?_, ?_, ?_, by decide, by decide⟩
  · have hscan : scanHex3After "FF0000".toList = ⟨3, some 255, some 0, some 0⟩ := by decide
    simp only [parse_foreground]
    rw [if_neg (by decide : ¬("FF0000" = "rainbow")), hscan]
    norm_num [initColorState]
  · have hscan1 : scanHex3After "#FF0000".toList = ⟨0, none, none, none⟩ := by decide
    have hscan2 : scanHashHex3 "#FF0000".toList = ⟨3, some 255, some 0, some 0⟩ := by decide
    simp only [parse_foreground]
    rw [if_neg (by decide : ¬("#FF0000" = "rainbow")), hscan1, hscan2]
    norm_num [initColorState]
  · intro st
    simp [parse_foreground]
  · intro d1 d2 d3 d4 d5 d6 h1 h2 h3 h4 h5 h6
    constructor
    · simp only [parse_foreground]
      rw [if_neg (mk_ne_rainbow_of_six [d1, d2, d3, d4, d5, d6] rfl)]
      rw [show (String.mk [d1, d2, d3, d4, d5, d6]).toList = [d1, d2, d3, d4, d5, d6] from rfl]
      rw [scanHex3After_six d1 d2 d3 d4 d5 d6 h1 h2 h3 h4 h5 h6]
      simp
    · simp only [parse_foreground]
      rw [if_neg (mk_hash_ne_rainbow [d1, d2, d3, d4, d5, d6])]
      rw [show (String.mk ['#', d1, d2, d3, d4, d5, d6]).toList =
        '#' :: [d1, d2, d3, d4, d5, d6] from rfl]
      have hfirst : scanHex3After ('#' :: [d1, d2, d3, d4, d5, d6]) = ⟨0, none, none, none⟩ := by
        have hns : isScanWs '#' = false := by decide
        have hnh : isHexDigitCh '#' = false := by decide
        have hnp : ¬('#' = '+') := by decide
        have hnm : ¬('#' = '-') := by decide
        simp only [scanHex3After, skipWs_not_ws _ hns]
        simp [spanHex2, hnh, hnp, hnm]
      have hsecond : scanHashHex3 ('#' :: [d1, d2, d3, d4, d5, d6]) =
          scanHex3After [d1, d2, d3, d4, d5, d6] := by
        simp [scanHashHex3]
      rw [hfirst, hsecond, scanHex3After_six d1 d2 d3 d4 d5 d6 h1 h2 h3 h4 h5 h6]
      simp

/-- Witness for C2 at concrete hex digits: "00FF00" and "#00FF00". -/
theorem c2_foreground_witness :
    (parse_foreground (String.mk ['0', '0', 'F', 'F', '0', '0']) initColorState).isSome = true ∧
    (parse_foreground (String.mk ['#', '0', '0', 'F', 'F', '0', '0']) initColorState).isSome = true := by
  have h := c2_foreground_amended.2.2.2.1 '0' '0' 'F' 'F' '0' '0'
    (by decide) (by decide) (by decide) (by decide) (by decide) (by decide)
  exact h

/-! ## Claim C4 -/

/-- C4 is refuted as stated: the string "640x480+10" matches none of the
three claimed shapes (WIDTHxHEIGHT, WIDTHxHEIGHT+X+Y, +X+Y), yet
parse_geometry accepts it: sscanf("640x480+10", "%ix%i%i%i") converts only
3 of 4 values, but the fallback sscanf("640x480+10", "%ix%i") returns 2,
so the size branch succeeds and the trailing "+10" is silently ignored. -/
theorem c4_geometry_counterexample :
    parse_geometry "640x480+10" ≠ none := by decide

/-- C4 (amended): parse_geometry maps "640x480" to width 640, height 480
with the position left at the SDL undefined sentinel; maps "640x480+10+20"
to that size plus position (10, 20); maps "+10+20" to position (10, 20)
with the default 480x480 size; but it rejects only the strings on which
all three sscanf patterns fail (such as "abc" or "640"): a string matching
a pattern prefix with trailing garbage, such as "640x480+10", is accepted
as its size part, and a bare pair of integers such as "10+20" is accepted
as a position. -/
theorem c4_geometry_amended :
    parse_geometry "640x480" =
      some ⟨SDL_WINDOWPOS_UNDEFINED, SDL_WINDOWPOS_UNDEFINED, 640, 480⟩ ∧
    parse_geometry "640x480+10+20" = some ⟨10, 20, 640, 480⟩ ∧
    parse_geometry "+10+20" = some ⟨10, 20, DEFAULT_WIDTH, DEFAULT_HEIGHT⟩ ∧
    parse_geometry "640x480+10" =
      some ⟨SDL_WINDOWPOS_UNDEFINED, SDL_WINDOWPOS_UNDEFINED, 640, 480⟩ ∧
    parse_geometry "10+20" = some ⟨10, 20, DEFAULT_WIDTH, DEFAULT_HEIGHT⟩ ∧
    parse_geometry "abc" = none ∧
    parse_geometry "640" = none := by decide

/-! ## Render path: set_hue and draw_buffer (vscope.c lines 255-301)

The C float arithmetic is modelled exactly over a linear ordered field
with a floor, so that the one definition serves both the rationals (where
the sector computations of C3 are exact and decidable) and the reals
(where draw_buffer composes it with the square root).  All hue values the
claims touch are exactly representable floats on which the C code computes
exactly, so the exact model is faithful there. -/

/-- An RGB triple as passed to glColor3f. -/
structure Color (α : Type) where
  r : α
  g : α
  b : α
deriving DecidableEq, Repr

/-- The C cast (long)hue: truncation toward zero. -/
def ctrunc {α : Type} [LinearOrderedField α] [FloorRing α] (x : α) : ℤ :=
  if 0 ≤ x then ⌊x⌋ else ⌈x⌉

/-- set_hue from vscope.c: a hue of at least 360 is first replaced by 0;
the hue is divided by 60, split into sector i = (long)hue and fraction
f = hue - i with q = 1 - f, and the switch on i issues one glColor3f call
per sector 0..5 (none = no call issued, the color is left unchanged). -/
def set_hue {α : Type} [LinearOrderedField α] [FloorRing α] (hue : α) : Option (Color α) :=
  let h0 : α := if 360 ≤ hue then 0 else hue
  let h : α := h0 / 60
  let i : ℤ := ctrunc h
  let f : α := h - (i : α)
  let q : α := 1 - f
  if i = 0 then some ⟨1, f, 0⟩
  else if i = 1 then some ⟨q, 1, 0⟩
  else if i = 2 then some ⟨0, 1, f⟩
  else if i = 3 then some ⟨0, q, 1⟩
  else if i = 4 then some ⟨f, 0, 1⟩
  else if i = 5 then some ⟨1, 0, q⟩
  else none

/-- The coordinate mapping of draw_buffer: x = buffer[i] / 30000.0, with
no clamping. -/
noncomputable def sampleToCoord (s : Int) : ℝ := (s : ℝ) / 30000

/-- The hue draw_buffer passes to set_hue in rainbow mode:
sqrtf(x*x + y*y) * 360.0. -/
noncomputable def pointHue (x y : ℝ) : ℝ := Real.sqrt (x * x + y * y) * 360

/-- The color issued for one point: set_hue of the distance hue in rainbow
mode, the constant foreground color otherwise. -/
noncomputable def drawColor (rainbow : Bool) (c : Color ℝ) (x y : ℝ) : Option (Color ℝ) :=
  if rainbow then set_hue (pointHue x y) else some c

/-- The stereo frames of the buffer: the loop reads buffer[i] and
buffer[i+1] for i = 0, 2, 4, ... -/
def framePairs : List Int → List (Int × Int)
  | a :: b :: rest => (a, b) :: framePairs rest
  | _ => []

/-- draw_buffer: one point per stereo frame, coordinates scaled by 30000,
with the per-point color. -/
noncomputable def draw_buffer (buf : List Int) (rainbow : Bool) (c : Color ℝ) :
    List (ℝ × ℝ × Option (Color ℝ)) :=
  (framePairs buf).map fun p =>
    (sampleToCoord p.1, sampleToCoord p.2,
      drawColor rainbow c (sampleToCoord p.1) (sampleToCoord p.2))

/-! ### set_hue lemmas -/

lemma ctrunc_intCast {α : Type} [LinearOrderedField α] [FloorRing α] (n : ℤ) :
    ctrunc (n : α) = n := by
  unfold ctrunc
  split
  · exact Int.floor_intCast n
  · exact Int.ceil_intCast n

lemma ctrunc_zero {α : Type} [LinearOrderedField α] [FloorRing α] : ctrunc (0 : α) = 0 := by
  simpa using ctrunc_intCast (α := α) 0

/-- Any hue of at least 360 is first zeroed, landing in sector 0 with
fraction 0: pure red. -/
lemma set_hue_of_ge_360 {α : Type} [LinearOrderedField α] [FloorRing α] {hue : α}
    (h : 360 ≤ hue) : set_hue hue = some ⟨1, 0, 0⟩ := by
  simp only [set_hue, if_pos h, zero_div, ctrunc_zero]
  norm_num

/-- set_hue at an exact sector boundary hue = 60 k below 360: the fraction
is 0, so the switch yields the pure or blended sector color. -/
lemma set_hue_boundary {α : Type} [LinearOrderedField α] [FloorRing α] {hue : α} (k : ℤ)
    (hne : ¬ 360 ≤ hue) (hk : hue / 60 = (k : α)) :
    set_hue hue =
      if k = 0 then some ⟨1, 0, 0⟩
      else if k = 1 then some ⟨1, 1, 0⟩
      else if k = 2 then some ⟨0, 1, 0⟩
      else if k = 3 then some ⟨0, 1, 1⟩
      else if k = 4 then some ⟨0, 0, 1⟩
      else if k = 5 then some ⟨1, 0, 1⟩
      else none := by
  simp only [set_hue, if_neg hne, hk, ctrunc_intCast, sub_self, sub_zero]

/-! ## Claim C3 -/

/-- C3: set_hue yields the same color for hue 0 and hue 360 (360 is first
zeroed), and the six sector boundaries 0, 60, 120, 180, 240, 300 yield
red, yellow, green, cyan, blue and magenta respectively — the pure or
blended colors of the six-sector piecewise-linear HSV approximation at
full saturation and value.  Stated over the rationals, where every value
involved is exact; the definition is the same polymorphic one the real
render path uses. -/
theorem c3_hue_boundaries :
    set_hue (360 : ℚ) = set_hue (0 : ℚ) ∧
    set_hue (0 : ℚ) = some ⟨1, 0, 0⟩ ∧
    set_hue (60 : ℚ) = some ⟨1, 1, 0⟩ ∧
    set_hue (120 : ℚ) = some ⟨0, 1, 0⟩ ∧
    set_hue (180 : ℚ) = some ⟨0, 1, 1⟩ ∧
    set_hue (240 : ℚ) = some ⟨0, 0, 1⟩ ∧
    set_hue (300 : ℚ) = some ⟨1, 0, 1⟩ := by
  have e0 : set_hue (0 : ℚ) = some ⟨1, 0, 0⟩ := by
    rw [set_hue_boundary 0 (by norm_num) (by norm_num)]; norm_num
  have e360 : set_hue (360 : ℚ) = some ⟨1, 0, 0⟩ := set_hue_of_ge_360 (by norm_num)
  refine ⟨e360.trans e0.symm, e0, ?_, ?_, ?_, ?_, ?_⟩
  · rw [set_hue_boundary 1 (by norm_num) (by norm_num)]; norm_num
  · rw [set_hue_boundary 2 (by norm_num) (by norm_num)]; norm_num
  · rw [set_hue_boundary 3 (by norm_num) (by norm_num)]; norm_num
  · rw [set_hue_boundary 4 (by norm_num) (by norm_num)]; norm_num
  · rw [set_hue_boundary 5 (by norm_num) (by norm_num)]; norm_num

/-! ## Claim C6 -/

/-- C6: the coordinate mapping divides the raw sample by 30000 with no
clamping: 30000 maps to 1.0, -30000 to -1.0, 0 to 0.0, and any sample of
magnitude above 30000 maps to a coordinate of magnitude above 1. -/
theorem c6_coordinate_mapping :
    sampleToCoord 30000 = 1 ∧ sampleToCoord (-30000) = -1 ∧ sampleToCoord 0 = 0 ∧
    ∀ s : Int, 30000 < |s| → 1 < |sampleToCoord s| := by
  refine ⟨by norm_num [sampleToCoord], by norm_num [sampleToCoord],
    by norm_num [sampleToCoord], ?_⟩
  intro s hs
  unfold sampleToCoord
  rw [abs_div, show |(30000:ℝ)| = 30000 by norm_num,
    lt_div_iff₀ (by norm_num : (0:ℝ) < 30000), one_mul, ← Int.cast_abs]
  exact_mod_cast hs

/-- Witness for C6: the in-range sample -30001 has magnitude above 30000
and lands strictly outside the unit square. -/
theorem c6_coordinate_mapping_witness : 1 < |sampleToCoord (-30001)| :=
  c6_coordinate_mapping.2.2.2 (-30001) (by decide)

/-! ## Claim C5 -/

/-- C5: in rainbow mode, every point (x, y) emitted by draw_buffer gets
the color set_hue(d * 360) where d = sqrt(x^2 + y^2) is the point's
Euclidean distance from the origin; in particular at distance exactly 1
the hue passed is the full rotation 360. -/
theorem c5_rainbow_hue (buf : List Int) (c : Color ℝ) (x y : ℝ) (col : Option (Color ℝ))
    (hmem : (x, y, col) ∈ draw_buffer buf true c) :
    col = set_hue (Real.sqrt (x ^ 2 + y ^ 2) * 360) ∧
    (x ^ 2 + y ^ 2 = 1 → col = set_hue 360) := by
  rcases List.mem_map.mp hmem with ⟨p, hp, heq⟩
  simp only [Prod.mk.injEq] at heq
  obtain ⟨hx, hy, hcol⟩ := heq
  subst hx hy hcol
  have hpoint : drawColor true c (sampleToCoord p.1) (sampleToCoord p.2) =
      set_hue (Real.sqrt (sampleToCoord p.1 ^ 2 + sampleToCoord p.2 ^ 2) * 360) := by
    simp only [drawColor, if_pos, pointHue]
    rw [show sampleToCoord p.1 * sampleToCoord p.1 + sampleToCoord p.2 * sampleToCoord p.2 =
      sampleToCoord p.1 ^ 2 + sampleToCoord p.2 ^ 2 by ring]
  refine ⟨hpoint, fun hone => ?_⟩
  rw [hpoint, hone, Real.sqrt_one, one_mul]

/-- Witness for C5 at the buffer [0, 30000]: the single drawn point is
(0, 1), at distance 1, and its color is set_hue of sqrt(0^2+1^2) * 360. -/
theorem c5_rainbow_hue_witness :
    drawColor true ⟨1, 1, 1⟩ 0 1 = set_hue (Real.sqrt ((0:ℝ) ^ 2 + 1 ^ 2) * 360) := by
  have h0 : sampleToCoord 0 = 0 := by norm_num [sampleToCoord]
  have h1 : sampleToCoord 30000 = 1 := by norm_num [sampleToCoord]
  have hmem : ((0:ℝ), (1:ℝ), drawColor true (⟨1, 1, 1⟩ : Color ℝ) 0 1) ∈
      draw_buffer [0, 30000] true ⟨1, 1, 1⟩ := by
    show _ ∈ [(sampleToCoord 0, sampleToCoord 30000,
      drawColor true (⟨1, 1, 1⟩ : Color ℝ) (sampleToCoord 0) (sampleToCoord 30000))]
    rw [h0, h1]
    exact List.mem_singleton.mpr rfl
  exact (c5_rainbow_hue [0, 30000] ⟨1, 1, 1⟩ 0 1 _ hmem).1

/-! ## Claim C10 -/

/-- C10: set_hue maps every input of 360 or more to hue 0, pure red — no
wrapping modulo 360 (420 yields red, not the yellow that 420 mod 360 = 60
yields) — and consequently in rainbow mode every point at distance 1 or
more from the origin is drawn pure red. -/
theorem c10_distance_saturates_red :
    (∀ h : ℝ, 360 ≤ h → set_hue h = some ⟨1, 0, 0⟩) ∧
    (∀ (c : Color ℝ) (x y : ℝ), 1 ≤ Real.sqrt (x ^ 2 + y ^ 2) →
      drawColor true c x y = some ⟨1, 0, 0⟩) ∧
    set_hue (420 : ℚ) = some ⟨1, 0, 0⟩ ∧
    set_hue (420 : ℚ) ≠ set_hue (60 : ℚ) := by
  have hyellow : set_hue (60 : ℚ) = some ⟨1, 1, 0⟩ := by
    rw [set_hue_boundary 1 (by norm_num) (by norm_num)]; norm_num
  refine ⟨fun h hge => set_hue_of_ge_360 hge, ?_, set_hue_of_ge_360 (by norm_num), ?_⟩
  · intro c x y hd
    have hsq : x * x + y * y = x ^ 2 + y ^ 2 := by ring
    have hge : (360 : ℝ) ≤ Real.sqrt (x * x + y * y) * 360 := by
      rw [hsq]
      calc (360 : ℝ) = 1 * 360 := (one_mul _).symm
        _ ≤ Real.sqrt (x ^ 2 + y ^ 2) * 360 :=
            mul_le_mul_of_nonneg_right hd (by norm_num)
    simp only [drawColor, if_pos, pointHue]
    exact set_hue_of_ge_360 hge
  · rw [set_hue_of_ge_360 (by norm_num : (360:ℚ) ≤ 420), hyellow]
    simp

/-- Witness for C10: hue 400 is red, and the point (0, 2), at distance 2
from the origin, is drawn red in rainbow mode. -/
theorem c10_distance_saturates_red_witness :
    set_hue (400 : ℝ) = some ⟨1, 0, 0⟩ ∧
    drawColor true ⟨1, 1, 1⟩ 0 2 = some ⟨1, 0, 0⟩ := by
  refine ⟨c10_distance_saturates_red.1 400 (by norm_num), ?_⟩
  apply c10_distance_saturates_red.2.1 ⟨1, 1, 1⟩ 0 2
  rw [show ((0:ℝ) ^ 2 + 2 ^ 2) = 2 ^ 2 by norm_num,
    Real.sqrt_sq (by norm_num : (0:ℝ) ≤ 2)]
  norm_num

/-! ## Sink resolution: handle_server_info (vscope.c lines 338-365)

On PA_CONTEXT_READY the context callback queries pa_context_get_server_info
and the server-info callback builds the record-stream device name: when no
sink was named on the command line, asprintf("%s.monitor",
info->default_sink_name). -/

/-- The device name passed to pa_stream_connect_record, from the
command-line sink (if any) and the server-reported default sink name. -/
def resolveSink (cliSink : Option String) (defaultSinkName : String) : String :=
  match cliSink with
  | some s => s
  | none => defaultSinkName ++ ".monitor"

/-! ## Claim C8 -/

/-- C8: when no sink is named on the command line, the record connection
targets the monitor source of the backend-reported default sink: the
device name is exactly the default sink name with ".monitor" appended
(8 characters longer), while a named sink is used verbatim. -/
theorem c8_default_sink_monitor (d : String) :
    resolveSink none d = d ++ ".monitor" ∧
    (resolveSink none d).length = d.length + 8 ∧
    ∀ s : String, resolveSink (some s) d = s := by
  refine ⟨rfl, ?_, fun s => rfl⟩
  show (d ++ ".monitor").length = d.length + 8
  rw [String.length_append, show (".monitor").length = 8 from rfl]

/-! ## Stream failure handling (vscope.c lines 367-372; threaded variant
function sample, lines 182-227 of its file)

The event-driven variant's stream-state callback calls
errx(EXIT_FAILURE, ...) — process exit with status 1 — when the stream
state is PA_STREAM_FAILED.  The threaded variant's capture thread instead
warns and returns from the thread function: on pa_simple_new failure it
returns before opening anything; on a pa_simple_read failure it warns,
frees the pa_simple handle and returns, leaving the main render loop
running.  The thread is modelled as a function of the open result and the
list of read results observed while the run flag stays set (the list ends
when the main thread clears the flag). -/

inductive PaStreamState where
  | unconnected | creating | ready | failed | terminated
deriving DecidableEq, Repr

/-- handle_stream_state: some code = the process exits with that status
(errpa is errx(EXIT_FAILURE, ...)), none = the callback returns. -/
def handle_stream_state (st : PaStreamState) : Option Nat :=
  if st = PaStreamState.failed then some 1 else none

/-- What the capture thread of the threaded variant did when it returned. -/
structure SampleOutcome where
  warned : Bool
  freedPulse : Bool
  killsProcess : Bool
deriving DecidableEq, Repr

/-- The while (run) read loop: an empty list means the run flag was
cleared (normal exit, handle freed); a failed read warns, frees the handle
and returns from the thread. -/
def sampleLoop : List Bool → SampleOutcome
  | [] => ⟨false, true, false⟩
  | ok :: rest => if ok then sampleLoop rest else ⟨true, true, false⟩

/-- The thread function sample: a pa_simple_new failure warns and returns
(nothing to free); otherwise the read loop runs. -/
def sample (openOk : Bool) (reads : List Bool) : SampleOutcome :=
  if openOk then sampleLoop reads else ⟨true, false, false⟩

lemma sampleLoop_of_failure (reads : List Bool) (h : false ∈ reads) :
    sampleLoop reads = ⟨true, true, false⟩ := by
  induction reads with
  | nil => simp at h
  | cons ok rest ih =>
    cases ok
    · simp [sampleLoop]
    · have : false ∈ rest := by simpa using h
      simp [sampleLoop, ih this]

/-! ## Claim C9 -/

/-- C9: in the threaded variant a failed backend read is non-fatal — the
capture thread warns, frees the pa_simple handle and returns without
touching the process (the render loop keeps running on the frozen
buffer) — whereas in the event-driven variant a PA_STREAM_FAILED
notification exits the whole process with the non-zero status 1. -/
theorem c9_read_failure_nonfatal :
    (∀ reads : List Bool, false ∈ reads →
      sample true reads = ⟨true, true, false⟩) ∧
    handle_stream_state PaStreamState.failed = some 1 ∧
    handle_stream_state PaStreamState.ready = none := by
  refine ⟨fun reads h => ?_, rfl, rfl⟩
  show sampleLoop reads = _
  exact sampleLoop_of_failure reads h

/-- Witness for C9: a run whose second read fails. -/
theorem c9_read_failure_nonfatal_witness :
    sample true [true, false] = ⟨true, true, false⟩ :=
  c9_read_failure_nonfatal.1 [true, false] (by decide)

/-! ## Option parsing: parse_args and main (vscope.c lines 91-215)

getopt_long and the sscanf conversions of the option values are libc —
the spec treats command-line parsing as an external collaborator.  A
command line is abstracted as the ordered list of events getopt_long
delivers: one event per recognized long option, carrying the result the
libc conversion of its value produced (none = the conversion cascade
rejected the value, which is exactly when the source prints a warning and
sets the fail flag; for --opacity the carried rational stands for the
converted float, a value that never influences control flow), one unknown
event per unrecognized option or missing argument, plus the list of
remaining positional arguments.  The repository code embedded here is the
loop around those calls: help and version print and exit(0) immediately;
a rejected option value sets the fail flag; an unknown option sets the
fail flag; after the loop a single positional becomes the sink, more than
one sets the fail flag; a set fail flag ends in errx(EXIT_FAILURE) — exit
status 1.  main runs parse_args before init_pulse, SDL_Init,
SDL_CreateWindow and SDL_GL_CreateContext, so any exit inside parse_args
happens before any window or audio resource is created.  The concrete
events in the theorems below are built by applying the scanner models of
this file to concrete value strings on which those models compute the
libc result exactly. -/

/-- Result of the sscanf cascade on an accepted --foreground value:
rainbow mode, or a converted RGB triple. -/
inductive ForegroundResult where
  | rainbowMode
  | rgb (r g b : ℚ)
deriving DecidableEq, Repr

inductive Arg where
  | help
  | version
  | geometry (r : Option Geometry)
  | opacity (r : Option ℚ)
  | foreground (r : Option ForegroundResult)
  | unknown
deriving DecidableEq, Repr

/-- The mutable option state of vscope.c filled by parse_args. -/
structure Config where
  geometry : Geometry
  opacity : ℚ
  color : ColorState
  sink : Option String
deriving DecidableEq, Repr

/-- Initial globals: geometry undefined position and default size,
opacity 1, color white, no sink. -/
def initConfig : Config :=
  ⟨⟨SDL_WINDOWPOS_UNDEFINED, SDL_WINDOWPOS_UNDEFINED, DEFAULT_WIDTH, DEFAULT_HEIGHT⟩,
    1, initColorState, none⟩

inductive ParseResult where
  | exited (code : Nat)
  | fatal
  | ok (cfg : Config)
deriving DecidableEq, Repr

/-- The getopt loop of parse_args: none = the process already exited with
status 0 (help or version), some (fail, cfg) = the loop finished with the
fail flag and the accumulated option state.  An option event carrying a
rejected value (result none) sets the fail flag and the loop continues,
as in the source. -/
def parseArgsLoop : List Arg → Bool → Config → Option (Bool × Config)
  | [], fail, cfg => some (fail, cfg)
  | Arg.help :: _, _, _ => none
  | Arg.version :: _, _, _ => none
  | Arg.geometry (some g) :: rest, fail, cfg =>
    parseArgsLoop rest fail { cfg with geometry := g }
  | Arg.geometry none :: rest, _, cfg => parseArgsLoop rest true cfg
  | Arg.opacity (some o) :: rest, fail, cfg =>
    parseArgsLoop rest fail { cfg with opacity := o }
  | Arg.opacity none :: rest, _, cfg => parseArgsLoop rest true cfg
  | Arg.foreground (some ForegroundResult.rainbowMode) :: rest, fail, cfg =>
    parseArgsLoop rest fail { cfg with color := { cfg.color with rainbow := true } }
  | Arg.foreground (some (ForegroundResult.rgb r g b)) :: rest, fail, cfg =>
    parseArgsLoop rest fail { cfg with color := ⟨r, g, b, cfg.color.rainbow⟩ }
  | Arg.foreground none :: rest, _, cfg => parseArgsLoop rest true cfg
  | Arg.unknown :: rest, _, cfg => parseArgsLoop rest true cfg

/-- parse_args: the getopt loop, then the positional check (one positional
becomes the sink, more than one is "too many arguments"), then
errx(EXIT_FAILURE) when the fail flag is set. -/
def parse_args (events : List Arg) (positionals : List String) : ParseResult :=
  match parseArgsLoop events false initConfig with
  | none => ParseResult.exited 0
  | some (fail, cfg) =>
    if positionals.length = 1 then
      if fail then ParseResult.fatal
      else ParseResult.ok { cfg with sink := some (positionals.headD "") }
    else if 0 < positionals.length then ParseResult.fatal
    else if fail then ParseResult.fatal
    else ParseResult.ok cfg

/-- The resource-creating calls of main, in program order after
parse_args. -/
inductive Action where
  | initPulse
  | sdlInit
  | createWindow
  | createGLContext
deriving DecidableEq, Repr

/-- Outcome of main up to entering the render loop: exited with a status
(having created the listed resources), or running the render loop. -/
inductive MainOutcome where
  | exited (code : Nat) (actions : List Action)
  | running (actions : List Action)
deriving DecidableEq, Repr

/-- main: parse_args runs first; only when it returns normally are the
audio and window resources created. -/
def main_model (events : List Arg) (positionals : List String) : MainOutcome :=
  match parse_args events positionals with
  | ParseResult.exited c => MainOutcome.exited c []
  | ParseResult.fatal => MainOutcome.exited 1 []
  | ParseResult.ok _ =>
    MainOutcome.running
      [Action.initPulse, Action.sdlInit, Action.createWindow, Action.createGLContext]

/-- The events that set the fail flag: an option whose value the libc
conversion rejected, or an unrecognized option. -/
def badEvent : Arg → Bool
  | Arg.geometry r => r.isNone
  | Arg.opacity r => r.isNone
  | Arg.foreground r => r.isNone
  | Arg.unknown => true
  | _ => false

/-! ### parse_args lemmas -/

/-- A help or version event anywhere in the event list makes the loop
exit with status 0: no earlier event kind ever exits. -/
lemma parseArgsLoop_help_exits (events : List Arg) :
    ∀ (fail : Bool) (cfg : Config), (Arg.help ∈ events ∨ Arg.version ∈ events) →
      parseArgsLoop events fail cfg = none := by
  induction events with
  | nil => intro fail cfg h; simp at h
  | cons e rest ih =>
    intro fail cfg h
    cases e with
    | help => rfl
    | version => rfl
    | geometry r =>
      have h2 : Arg.help ∈ rest ∨ Arg.version ∈ rest := by
        rcases h with h | h
        · exact Or.inl (by simpa using h)
        · exact Or.inr (by simpa using h)
      cases r <;> simp only [parseArgsLoop] <;> exact ih _ _ h2
    | opacity r =>
      have h2 : Arg.help ∈ rest ∨ Arg.version ∈ rest := by
        rcases h with h | h
        · exact Or.inl (by simpa using h)
        · exact Or.inr (by simpa using h)
      cases r <;> simp only [parseArgsLoop] <;> exact ih _ _ h2
    | foreground r =>
      have h2 : Arg.help ∈ rest ∨ Arg.version ∈ rest := by
        rcases h with h | h
        · exact Or.inl (by simpa using h)
        · exact Or.inr (by simpa using h)
      rcases r with _ | fr
      · simp only [parseArgsLoop]
        exact ih _ _ h2
      · cases fr <;> simp only [parseArgsLoop] <;> exact ih _ _ h2
    | unknown =>
      have h2 : Arg.help ∈ rest ∨ Arg.version ∈ rest := by
        rcases h with h | h
        · exact Or.inl (by simpa using h)
        · exact Or.inr (by simpa using h)
      simp only [parseArgsLoop]
      exact ih _ _ h2

/-- With no help or version event, a bad event (or an already set fail
flag) makes the loop finish with the fail flag set. -/
lemma parseArgsLoop_fail_sticks (events : List Arg) :
    ∀ (fail : Bool) (cfg : Config),
      Arg.help ∉ events → Arg.version ∉ events →
      ((∃ e ∈ events, badEvent e = true) ∨ fail = true) →
      ∃ cfg2, parseArgsLoop events fail cfg = some (true, cfg2) := by
  induction events with
  | nil =>
    intro fail cfg _ _ h
    rcases h with ⟨e, he, _⟩ | rfl
    · simp at he
    · exact ⟨cfg, rfl⟩
  | cons e rest ih =>
    intro fail cfg hh hv h
    have hh2 : Arg.help ∉ rest := fun hr => hh (List.mem_cons_of_mem _ hr)
    have hv2 : Arg.version ∉ rest := fun hr => hv (List.mem_cons_of_mem _ hr)
    have hshift : ∀ a : Arg, (∃ e2 ∈ a :: rest, badEvent e2 = true) →
        badEvent a = true ∨ (∃ e2 ∈ rest, badEvent e2 = true) := by
      intro a ⟨e2, he2, hbad2⟩
      rcases List.mem_cons.mp he2 with rfl | he3
      · exact Or.inl hbad2
      · exact Or.inr ⟨e2, he3, hbad2⟩
    have hrest : ((∃ e2 ∈ e :: rest, badEvent e2 = true) ∨ fail = true) →
        badEvent e = false → ((∃ e2 ∈ rest, badEvent e2 = true) ∨ fail = true) := by
      intro hin hgood
      rcases hin with hex | hf
      · rcases hshift _ hex with hbad | hex2
        · rw [hgood] at hbad
          exact absurd hbad (by decide)
        · exact Or.inl hex2
      · exact Or.inr hf
    cases e with
    | help => exact absurd (List.mem_cons_self _ _) hh
    | version => exact absurd (List.mem_cons_self _ _) hv
    | geometry r =>
      rcases r with _ | g
      · simp only [parseArgsLoop]
        exact ih true cfg hh2 hv2 (Or.inr rfl)
      · simp only [parseArgsLoop]
        exact ih fail _ hh2 hv2 (hrest h rfl)
    | opacity r =>
      rcases r with _ | o
      · simp only [parseArgsLoop]
        exact ih true cfg hh2 hv2 (Or.inr rfl)
      · simp only [parseArgsLoop]
        exact ih fail _ hh2 hv2 (hrest h rfl)
    | foreground r =>
      rcases r with _ | fr
      · simp only [parseArgsLoop]
        exact ih true cfg hh2 hv2 (Or.inr rfl)
      · cases fr with
        | rainbowMode =>
          simp only [parseArgsLoop]
          exact ih fail _ hh2 hv2 (hrest h rfl)
        | rgb a b c =>
          simp only [parseArgsLoop]
          exact ih fail _ hh2 hv2 (hrest h rfl)
    | unknown =>
      simp only [parseArgsLoop]
      exact ih true cfg hh2 hv2 (Or.inr rfl)

/-! ## Claim C7 -/

/-- C7 is refuted as stated: the command line
"vscope --geometry abc --help" contains a malformed geometry value
(parse_geometry rejects "abc", faithfully to the C sscanf cascade), yet
the process terminates with exit status 0, not nonzero — getopt delivers
the events in command-line order, the malformed geometry only sets the
fail flag, and the subsequent help option prints and exits 0
immediately. -/
theorem c7_cli_errors_counterexample :
    parse_geometry "abc" = none ∧
    main_model [Arg.geometry (parse_geometry "abc"), Arg.help] [] =
      MainOutcome.exited 0 [] := by
  exact ⟨by decide, rfl⟩

/-- C7 (amended): for every command line containing an option whose value
the libc conversion rejects or an unknown option, and containing neither
--help nor --version, the program terminates with the non-zero exit
status 1 before any window or audio resource is created; and every
command line containing --help or --version terminates with exit status 0
(and no resources created) — even when a malformed value precedes the
help or version option, since the getopt loop exits at that option. -/
theorem c7_cli_errors (events : List Arg) (pos : List String) :
    ((Arg.help ∈ events ∨ Arg.version ∈ events) →
      main_model events pos = MainOutcome.exited 0 []) ∧
    (Arg.help ∉ events → Arg.version ∉ events → (∃ e ∈ events, badEvent e = true) →
      main_model events pos = MainOutcome.exited 1 []) := by
  constructor
  · intro h
    have hloop := parseArgsLoop_help_exits events false initConfig h
    simp [main_model, parse_args, hloop]
  · intro hh hv hbad
    obtain ⟨cfg2, hloop⟩ := parseArgsLoop_fail_sticks events false initConfig hh hv (Or.inl hbad)
    simp only [main_model, parse_args, hloop]
    split_ifs <;> rfl

/-- Witness for C7: the command line "vscope --geometry abc" exits with
status 1 and creates nothing. -/
theorem c7_cli_errors_witness :
    main_model [Arg.geometry (parse_geometry "abc")] [] = MainOutcome.exited 1 [] :=
  (c7_cli_errors [Arg.geometry (parse_geometry "abc")] []).2 (by decide) (by decide)
    ⟨Arg.geometry (parse_geometry "abc"), by decide, by decide⟩

end Vscope
